import Mathlib

/-!
# Verification of `CreateAgent` (src/agents/zen/create_agent.py)

A shallow embedding of the C.R.E.A.T.E. prompt-generation pipeline of
`CreateAgent`.  Python strings become `String`, the `context` /
`query_analysis` / `preferences` dictionaries become structures of
`Option` fields plus a flag recording whether any further key is
present (only emptiness of the whole dictionary is ever observed by the
code), and the external ANCHOR-QR evaluator — which lives outside the
analyzed sources — is a function parameter that either returns a result
or raises (`Except`).  A context value bound to `query`/`task`/`request`
may be a non-string (the code then fails on `.strip()` and falls into
the outer exception handler), which is modelled by the `PyVal` sum.

All definitions are executable; section templates are transcribed
verbatim from the source (including the two trailing blanks after
"case studies where relevant" in the evidence block).
-/

set_option maxHeartbeats 1000000
set_option maxRecDepth 16384

namespace CreateAgent

/-! ## Basic string machinery mirroring Python primitives -/

/-- Is `p` a prefix of `l`? (Python slice comparison; used to embed `in`). -/
def isPreL : List Char → List Char → Bool
  | [], _ => true
  | _ :: _, [] => false
  | a :: as, b :: bs => a == b && isPreL as bs

/-- Does the pattern `p` occur as a contiguous run inside `l`?
Mirrors Python's substring operator `pat in s`. -/
def hasIn (p : List Char) : List Char → Bool
  | [] => p.isEmpty
  | c :: t => isPreL p (c :: t) || hasIn p t

/-- Python's `pat in s` substring test. -/
def strContains (s pat : String) : Bool := hasIn pat.data s.data

/-- Python's `any(term in s for term in kws)`. -/
def anyKw (s : String) (kws : List String) : Bool := kws.any fun k => strContains s k

/-- A first-match-wins rule table: the `if/elif/.../else` chains of the
source, re-expressed as an ordered list of (condition, result) pairs
with a default (the chain order is the list order). -/
def firstMatch : List (Bool × String) → String → String
  | [], d => d
  | (c, r) :: t, d => if c then r else firstMatch t d

/-- Python's `str.join` on a separator: `sep.join(l)`. -/
def pyJoin (sep : String) : List String → String
  | [] => ""
  | [x] => x
  | x :: y :: t => x ++ sep ++ pyJoin sep (y :: t)

/-- Helper for `pyTitle`: walk the characters remembering whether the
previous character was alphabetic (ASCII approximation of Python's
case-tracking in `str.title`). -/
def titleAux : Bool → List Char → List Char
  | _, [] => []
  | prevAlpha, c :: t =>
    (if c.isAlpha then (if prevAlpha then c.toLower else c.toUpper) else c)
      :: titleAux c.isAlpha t

/-- Python's `str.title()` (ASCII fragment): the first letter of every
letter-run is upper-cased, the rest lower-cased. -/
def pyTitle (s : String) : String := ⟨titleAux false s.data⟩

/-- Python's `str.lower()` (ASCII fragment), computed on the character
list so that it reduces inside the kernel. -/
def pyLower (s : String) : String := ⟨s.data.map Char.toLower⟩

/-- Python's whitespace test for `str.strip()`. -/
def isSpaceC (c : Char) : Bool :=
  c = ' ' || c = '\t' || c = '\n' || c = '\r' || c = '\x0b' || c = '\x0c'

/-- Python's `str.strip()`: remove leading and trailing whitespace. -/
def pyStrip (s : String) : String :=
  ⟨((s.data.dropWhile isSpaceC).reverse.dropWhile isSpaceC).reverse⟩

/-! ## Data model: the Python dictionaries seen by `generate_prompt` -/

/-- A value stored under `query`/`task`/`request` in the context mapping:
either a string or (exercising the error path) a Python `int`. -/
inductive PyVal where
  | str : String → PyVal
  | int : Int → PyVal
deriving DecidableEq, Repr

/-- Python truthiness of a `PyVal` (`"" `and `0` are falsy). -/
def PyVal.truthy : PyVal → Bool
  | .str s => !s.data.isEmpty
  | .int n => n != 0

/-- Python `a or b`: `a` if truthy, else `b`. -/
def pyOr (a b : PyVal) : PyVal := if a.truthy then a else b

/-- The `query_analysis` mapping: optional `query_type` and `complexity`
keys (defaults `"general"` / `"intermediate"` are applied at each use
site, as in the source). -/
structure QueryAnalysis where
  query_type : Option String := none
  complexity : Option String := none
deriving DecidableEq, Repr

/-- The `context` mapping.  Each key the code reads is an `Option`
field; `hasOtherKeys` records whether the dictionary holds any further
key (e.g. `hyde_score`), which matters only for the `if not context:`
emptiness test. -/
structure Context where
  query : Option PyVal := none
  task : Option PyVal := none
  request : Option PyVal := none
  query_analysis : Option QueryAnalysis := none
  reasoning_depth : Option String := none
  hasOtherKeys : Bool := false
deriving DecidableEq, Repr

/-- Python `not context`: the context dictionary is empty. -/
def Context.isEmptyDict (c : Context) : Bool :=
  c.query.isNone && c.task.isNone && c.request.isNone &&
    c.query_analysis.isNone && c.reasoning_depth.isNone && !c.hasOtherKeys

/-- The `preferences` mapping (only `tone_preference` is read;
`hasOtherKeys` again only feeds the truthiness test `if preferences`). -/
structure Preferences where
  tone_preference : Option String := none
  hasOtherKeys : Bool := false
deriving DecidableEq, Repr

/--
`query = context.get("query", "") or context.get("task", "") or context.get("request", "")`
(line 155 of the source). -/
def resolvedQuery (c : Context) : PyVal :=
  pyOr (pyOr (c.query.getD (.str "")) (c.task.getD (.str ""))) (c.request.getD (.str ""))

/-- `preferences.get("tone_preference", "professional") if preferences else "professional"`
(line 377): an empty preferences dictionary is falsy in Python. -/
def toneOf (p : Option Preferences) : String :=
  match p with
  | none => "professional"
  | some pr =>
    if pr.tone_preference.isSome || pr.hasOtherKeys then
      pr.tone_preference.getD "professional"
    else "professional"

/-! ## External collaborator: the ANCHOR-QR evaluator -/

/-- Modelled from the spec: `RigorLevel` is imported from
`src.core.anchor_qr_evaluator`, which is not among the analyzed
sources; spec §3 describes it as an enumerated value type with the
variants BASIC, STANDARD and ADVANCED. -/
inductive RigorLevel where
  | BASIC
  | STANDARD
  | ADVANCED
deriving DecidableEq, Repr

/-- Modelled from the spec: the `.value` label of a `RigorLevel` member
(the enum lives in the external evaluator module; the concrete label
strings are not observable from the analyzed sources and no claim
depends on them). -/
def RigorLevel.value : RigorLevel → String
  | .BASIC => "basic"
  | .STANDARD => "standard"
  | .ADVANCED => "advanced"

/-- Modelled from the spec (§3): the record returned by the external
evaluator, listing exactly the fields the adapter projects. -/
structure EvaluationResult where
  overall_score : Float
  overall_confidence : Float
  compliance_score : Float
  rigor_level : RigorLevel
  is_passing : Bool
  needs_revision : Bool
  all_flags : List String
  critical_issues : List String
  improvement_recommendations : List String
  step_results : List (String × Float)

/-- A value of the flat report dictionary returned alongside the
document when evaluation is requested. -/
inductive RVal where
  | str : String → RVal
  | num : Float → RVal
  | boolV : Bool → RVal
  | listStr : List String → RVal
  | pairs : List (String × Float) → RVal
  | noneV : RVal

/-- The external `evaluate_prompt(prompt, context, rigor_level)` call:
synchronous, may raise (`Except.error` carries `str(exception)`). -/
def Evaluator : Type :=
  String → Context → RigorLevel → Except String EvaluationResult

/-- The outcome of `generate_prompt`: a bare document when
`include_evaluation` is false, a document plus report dictionary
(association list in insertion order) when it is true. -/
inductive GenOutcome where
  | single : String → GenOutcome
  | withReport : String → List (String × RVal) → GenOutcome

/-- The primary document carried by an outcome. -/
def GenOutcome.document : GenOutcome → String
  | .single d => d
  | .withReport d _ => d

/-! ## Classifier helpers (lines 423-645 of the source) -/

/-- `_determine_role_from_query_type` (lines 423-471). -/
def determine_role_from_query_type (query_type query : String) : String :=
  let ql := pyLower query
  firstMatch
    [(anyKw ql ["security", "threat", "vulnerability", "cyber", "attack", "defense"],
      if strContains ql "network" || strContains ql "infrastructure" then
        "network security specialist"
      else if strContains ql "cloud" then "cloud security architect"
      else "cybersecurity architect"),
     (anyKw ql ["api", "microservices", "docker", "kubernetes", "ci/cd", "devops"],
      "senior software architect"),
     (anyKw ql ["data", "analytics", "power bi", "sql", "database"],
      "senior data architect"),
     (anyKw ql ["how to", "implement", "setup", "configure"],
      "technical implementation specialist"),
     (anyKw ql ["compare", "vs", "versus", "difference"],
      "technology consultant"),
     (anyKw ql ["startup", "business", "strategy", "decision", "recommend"],
      "senior technology strategist"),
     (anyKw ql ["machine learning", "ai", "artificial intelligence", "model"],
      "machine learning engineer"),
     (query_type == "security", "cybersecurity architect"),
     (query_type == "technical_analysis", "senior systems analyst"),
     (query_type == "analysis_request", "strategic business analyst"),
     (query_type == "documentation", "technical documentation specialist"),
     (query_type == "create_enhancement", "prompt engineering specialist"),
     (query_type == "implementation", "senior solution architect"),
     (query_type == "general_query", "subject matter expert")]
    "senior consultant"

/-- `_generate_persona_clause` (lines 473-501). -/
def generate_persona_clause (query_type role : String) : String :=
  let rl := pyLower role
  firstMatch
    [(strContains rl "security", "with 15+ years defending critical infrastructure systems"),
     (strContains rl "architect", "specializing in scalable enterprise system design"),
     (strContains rl "consultant", "with proven expertise in technology strategy"),
     (strContains rl "engineer", "experienced in production-grade system implementation"),
     (strContains rl "analyst", "focused on data-driven decision making"),
     (strContains rl "specialist", "with deep domain expertise and practical experience"),
     (strContains rl "strategist", "experienced in guiding technical business decisions"),
     (query_type == "security", "with proven experience in cybersecurity domains"),
     (query_type == "technical_analysis", "specializing in system optimization and architecture"),
     (query_type == "analysis_request", "focused on evidence-based strategic analysis"),
     (query_type == "documentation", "known for creating clear, actionable guidance"),
     (query_type == "implementation", "with hands-on experience in complex deployments"),
     (query_type == "general_query", "with comprehensive knowledge across domains")]
    "with deep expertise in the relevant field"

/-- `_determine_rigor_level` (lines 503-512). -/
def determine_rigor_level (reasoning_depth : String) (query_analysis : QueryAnalysis) :
    RigorLevel :=
  let complexity := query_analysis.complexity.getD "intermediate"
  if reasoning_depth = "comprehensive" ∨ complexity = "complex" then .ADVANCED
  else if reasoning_depth = "basic" ∧ complexity = "simple" then .BASIC
  else .STANDARD

/-- The complexity-keyed first element of `context_elements`
(lines 521-524). -/
def bgComplexityElems (complexity : String) : List String :=
  if complexity = "complex" then
    ["This is a complex topic requiring comprehensive multi-faceted analysis with consideration of various perspectives and implications"]
  else if complexity = "intermediate" then
    ["This topic requires structured analysis with attention to key factors and relationships"]
  else []

/-- The pattern-predicate elements of `context_elements`
(lines 527-547), in source order. -/
def bgPatternElems (ql : String) : List String :=
  (if anyKw ql ["compare", "vs", "versus", "difference"] then
    ["Multiple options or approaches require systematic comparison to support informed decision-making"]
  else []) ++
  (if anyKw ql ["how to", "implement", "setup", "configure"] then
    ["The user needs step-by-step guidance for practical implementation"]
  else []) ++
  (if anyKw ql ["security", "threat", "vulnerability"] then
    ["Security considerations and risk factors must be thoroughly addressed"]
  else []) ++
  (if anyKw ql ["startup", "business", "strategy"] then
    ["Business context and strategic implications are critical to the analysis"]
  else []) ++
  (if anyKw ql ["machine learning", "ai", "model"] then
    ["Technical accuracy and practical applicability are essential for AI/ML topics"]
  else []) ++
  (if strContains ql "microservices" || strContains ql "architecture" then
    ["Architectural decisions have long-term implications for scalability and maintainability"]
  else []) ++
  (if strContains ql "ci/cd" || strContains ql "devops" then
    ["Implementation must consider development workflow and operational requirements"]
  else [])

/-- The full `context_elements` list including the empty-list default
(lines 516-551). -/
def bgElems (query : String) (query_analysis : QueryAnalysis) : List String :=
  let ql := pyLower query
  let complexity := query_analysis.complexity.getD "intermediate"
  let l := bgComplexityElems complexity ++ bgPatternElems ql
  if l.isEmpty then ["The user seeks authoritative information with practical applicability"] else l

/-- `_extract_background_context` (lines 514-553):
`". ".join(context_elements) + "."`. -/
def extract_background_context (query : String) (query_analysis : QueryAnalysis) : String :=
  pyJoin ". " (bgElems query query_analysis) ++ "."

/-- `_define_response_goal` (lines 555-564). -/
def define_response_goal (query : String) (_query_analysis : QueryAnalysis) : String :=
  if strContains (pyLower query) "how to" then
    "Provide step-by-step guidance that enables successful implementation"
  else if anyKw (pyLower query) ["compare", "vs", "versus", "difference"] then
    "Deliver clear comparisons that support informed decision-making"
  else if strContains (pyLower query) "explain" then
    "Provide comprehensive understanding with practical context"
  else
    "Deliver actionable insights that directly address the user's needs"

/-- The `tier_mapping` dictionary of `_select_appropriate_tier`
(lines 570-578): a sparse lookup over seven explicit pairs. -/
def tier_mapping (reasoning_depth complexity : String) : Option String :=
  if reasoning_depth = "basic" ∧ complexity = "simple" then
    some "Tier 3: Summary (200-400 words) - Concise overview"
  else if reasoning_depth = "basic" ∧ complexity = "intermediate" then
    some "Tier 4: Overview (400-900 words) - Analyst briefing"
  else if reasoning_depth = "intermediate" ∧ complexity = "simple" then
    some "Tier 4: Overview (400-900 words) - Analyst briefing"
  else if reasoning_depth = "intermediate" ∧ complexity = "intermediate" then
    some "Tier 6: In-Depth Analysis (2000-5000 words) - Professional memo"
  else if reasoning_depth = "comprehensive" ∧ complexity = "simple" then
    some "Tier 6: In-Depth Analysis (2000-5000 words) - Professional memo"
  else if reasoning_depth = "comprehensive" ∧ complexity = "intermediate" then
    some "Tier 8: Comprehensive Study (8000-15000 words) - Research report"
  else if reasoning_depth = "comprehensive" ∧ complexity = "complex" then
    some "Tier 9: Expert Analysis (15000-30000 words) - Detailed study"
  else none

/-- `_select_appropriate_tier` (lines 566-580). -/
def select_appropriate_tier (reasoning_depth : String) (query_analysis : QueryAnalysis) :
    String :=
  let complexity := query_analysis.complexity.getD "intermediate"
  (tier_mapping reasoning_depth complexity).getD
    "Tier 5: Detailed Response (900-2000 words) - Professional analysis"

/-- `_extract_action_verbs` (lines 582-595). -/
def extract_action_verbs (query : String) : String :=
  let ql := pyLower query
  if strContains ql "analyze" || strContains ql "analysis" then
    "Analyze, evaluate, and synthesize"
  else if strContains ql "compare" then "Compare, contrast, and recommend"
  else if strContains ql "explain" then "Explain, clarify, and illustrate"
  else if strContains ql "implement" || strContains ql "how to" then
    "Guide, implement, and optimize"
  else "Examine, assess, and advise"

/-- `_determine_output_format` (lines 597-606); note the third test uses
`query_analysis.get("complexity")` with no default. -/
def determine_output_format (query : String) (query_analysis : QueryAnalysis) : String :=
  if strContains (pyLower query) "step" || strContains (pyLower query) "how to" then
    "Structured guide with clear steps and checkpoints"
  else if strContains (pyLower query) "comparison" || strContains (pyLower query) "vs" then
    "Comparative analysis with side-by-side evaluation"
  else if query_analysis.complexity = some "complex" then
    "Comprehensive report with executive summary and detailed sections"
  else "Professional analysis with clear structure and actionable insights"

/-- The conditional `frameworks` list of `_select_analytical_frameworks`
(lines 613-623). -/
def frameworksList (query : String) (query_analysis : QueryAnalysis) : List String :=
  let query_type := query_analysis.query_type.getD "general"
  let ql := pyLower query
  if query_type = "security" || strContains ql "security" then
    ["- **STRIDE Analysis**: Systematic threat modeling",
     "- **Defense-in-Depth**: Layered security approach"]
  else if strContains ql "comparison" || strContains ql "vs" then
    ["- **Comparative Analysis**: Systematic side-by-side evaluation",
     "- **Decision Matrix**: Weighted criteria assessment"]
  else if query_type = "analysis_request" then
    ["- **SWOT Analysis**: Strengths, Weaknesses, Opportunities, Threats",
     "- **Root Cause Analysis**: Systematic problem investigation"]
  else []

/-- `_select_analytical_frameworks` (lines 608-629):
`"\n".join(frameworks)` after the empty-list default. -/
def select_analytical_frameworks (query : String) (query_analysis : QueryAnalysis) : String :=
  let l := frameworksList query query_analysis
  let l := if l.isEmpty then
    ["- **Structured Analysis**: Systematic examination of key components",
     "- **Evidence-Based Reasoning**: Claims supported by credible sources"]
  else l
  pyJoin "\n" l

/-- `_determine_evidence_requirements` (lines 631-645); the second line
of the complex branch carries two trailing blanks, as in the source. -/
def determine_evidence_requirements (query_analysis : QueryAnalysis) : String :=
  let complexity := query_analysis.complexity.getD "intermediate"
  if complexity = "complex" then
    "- Cite authoritative sources for all factual claims\n- Include recent examples or case studies where relevant  \n- Acknowledge limitations and uncertainties appropriately\n- Reference industry standards or best practices\n- Use [ExpertJudgment] tags for professional opinions requiring domain expertise"
  else
    "- Support key claims with evidence or reasoning\n- Include relevant examples to illustrate concepts\n- Acknowledge areas of uncertainty with appropriate hedging\n- Reference credible sources where factual accuracy is critical"

/-- The inline rigor label computed inside `_build_evaluation_component`
(lines 397-403) — a second, structurally different rigor rule. -/
def inlineRigorLabel (reasoning_depth complexity : String) : String :=
  if reasoning_depth = "comprehensive" ∨ complexity = "complex" then "Advanced"
  else if reasoning_depth = "intermediate" then "Standard"
  else "Basic"

/-- The display label a `RigorLevel` would print in the Evaluation
section, for comparing the two rigor computations. -/
def rigorDisplay : RigorLevel → String
  | .ADVANCED => "Advanced"
  | .STANDARD => "Standard"
  | .BASIC => "Basic"

/-! ## Section builders (lines 272-420) -/

/-- `_build_context_component` (lines 272-298). -/
def build_context_component (query : String) (query_analysis : QueryAnalysis)
    (preferences : Option Preferences) : String :=
  let query_type := query_analysis.query_type.getD "general"
  let role := determine_role_from_query_type query_type query
  let persona := generate_persona_clause query_type role
  let background := extract_background_context query query_analysis
  let goal := define_response_goal query query_analysis
  let _ := preferences
  "**Role**: You are a " ++ role ++ ", " ++ persona ++
  "\n\n**Background**: " ++ background ++
  "\n\n**Goal**: " ++ goal ++
  "\n\n**Audience**: The response should be appropriate for " ++
  query_analysis.complexity.getD "intermediate" ++ "-level understanding."

/-- `_build_request_component` (lines 300-325). -/
def build_request_component (query reasoning_depth : String)
    (query_analysis : QueryAnalysis) : String :=
  let tier_info := select_appropriate_tier reasoning_depth query_analysis
  let action_verbs := extract_action_verbs query
  let output_format := determine_output_format query query_analysis
  "**Primary Task**: " ++ query ++
  "\n\n**Deliverable Requirements**:\n- Format: " ++ output_format ++
  "\n- Depth: " ++ tier_info ++
  "\n- Action Focus: " ++ action_verbs ++
  "\n- Scope: Comprehensive analysis addressing all aspects of the query\n- Quality Standard: Professional-grade output suitable for business decision-making\n\n**Success Criteria**: Response must be actionable, well-structured, and provide clear value to the user."

/-- `_build_examples_component` (lines 327-352). -/
def build_examples_component (query : String) (_query_analysis : QueryAnalysis) : String :=
  if strContains (pyLower query) "comparison" || strContains (pyLower query) "vs" then
    "### Example Structure ###\n**Aspect 1 Comparison**:\n- Option A: [Specific characteristic with evidence]\n- Option B: [Contrasting characteristic with evidence]\n- Key Differentiator: [Critical distinction that influences decisions]\n\n### Example Quality Standard ###\nEach comparison point should include:\n- Specific, measurable differences\n- Relevant examples or case studies\n- Clear implications for the user's context"
  else
    "### Example Response Pattern ###\n**Analysis Framework**:\n1. Core Concept Definition: [Clear, precise definition]\n2. Key Components: [Essential elements with explanations]\n3. Practical Applications: [Real-world examples and use cases]\n4. Implementation Considerations: [Actionable guidance]\n\n**Quality Indicators**: Specific details, credible sources, actionable insights"

/-- `_build_augmentations_component` (lines 354-368). -/
def build_augmentations_component (query : String) (query_analysis : QueryAnalysis) : String :=
  let frameworks := select_analytical_frameworks query query_analysis
  let evidence_requirements := determine_evidence_requirements query_analysis
  "**Analytical Frameworks to Apply**:\n" ++ frameworks ++
  "\n\n**Evidence Requirements**:\n" ++ evidence_requirements ++
  "\n\n**Advanced Reasoning**: Apply systematic analysis with clear logical progression. For complex topics, use step-by-step reasoning to build conclusions from evidence."

/-- `_build_tone_format_component` (lines 370-391). -/
def build_tone_format_component (_query : String) (preferences : Option Preferences) :
    String :=
  let tone := toneOf preferences
  "**Tone**: " ++ pyTitle tone ++
  " and accessible, with authoritative expertise\n\n**Writing Standards**:\n- Moderate hedge density (5-10% of sentences) to acknowledge appropriate uncertainties\n- High lexical diversity (varied vocabulary, no word appearing >2% of tokens)\n- Sentence variability (average 17-22 words, with mix of short and long sentences)\n- Include at least one rhetorical question to engage critical thinking\n- Use narrative prose over bullet lists unless specifically requested\n\n**Structure**: Clear heading hierarchy with logical flow from overview to specific details\n\n**Citation Style**: Include sources and evidence attribution where claims require support"

/-- `_build_evaluation_component` (lines 393-420). -/
def build_evaluation_component (reasoning_depth : String)
    (query_analysis : QueryAnalysis) : String :=
  let complexity := query_analysis.complexity.getD "intermediate"
  let rigor_level := inlineRigorLabel reasoning_depth complexity
  "**Quality Assurance Protocol** (ANCHOR-QR-8, " ++ rigor_level ++
  " Rigor):\n\n**Success Criteria**:\n- Does the response fully address the original query?\n- Are all claims supported by evidence or clearly marked as expert judgment?\n- Is the analysis logically consistent throughout?\n- Does the response provide actionable insights?\n- Is the tone appropriate for the intended audience?\n\n**Verification Requirements**:\n- Check for internal contradictions\n- Verify factual accuracy of key claims\n- Ensure recommendations are feasible and specific\n- Confirm appropriate uncertainty acknowledgment\n\n**Quality Standards**: Professional-grade accuracy, comprehensive coverage, clear practical value"

/-! ## Assembly, error path and `generate_prompt` (lines 122-270) -/

/-- The `create_prompt` f-string (lines 179-203): six fixed `##`
headings in fixed order around the six section bodies, preceded by one
`#`-level title and followed by the fixed footer. -/
def assemble (c r e a t v : String) : String :=
  "# C.R.E.A.T.E. Framework Enhanced Prompt\n\n## C - Context (Role, Background, Goal)\n" ++ c ++
  "\n\n## R - Request (Task, Format, Depth, Action Verbs)\n" ++ r ++
  "\n\n## E - Examples (Few-Shot Prompting)\n" ++ e ++
  "\n\n## A - Augmentations (Frameworks, Evidence, Reasoning)\n" ++ a ++
  "\n\n## T - Tone & Format (Voice, Style, Structure)\n" ++ t ++
  "\n\n## E - Evaluation (Quality Assurance, Verification)\n" ++ v ++
  "\n\n---\n\n**Instructions for Use**: Copy this entire C.R.E.A.T.E. framework prompt and provide it to your AI assistant to receive a comprehensive, well-structured response that meets professional standards.\n\n*This CREATE framework prompt was generated by PromptCraft to ensure high-quality, reliable AI outputs with minimal hallucinations and appropriate sourcing for independent validation.*"

/-- `_generate_error_prompt` (lines 257-270); the template ends with a
newline. -/
def generate_error_prompt (error_message : String) : String :=
  "# Prompt Generation Error\n\nAn error occurred during CREATE framework prompt generation: " ++
  error_message ++
  "\n\nPlease try again with a clearer query, or contact support if the issue persists.\n\n## Fallback Prompt Structure\n\n**Context**: Please act as a helpful assistant\n**Request**: " ++
  error_message ++
  "\n**Guidance**: Provide a clear, accurate response based on the query provided\n"

/-- The six-section document built from a resolved string query
(lines 170-203). -/
def buildDocument (query : String) (query_analysis : QueryAnalysis)
    (reasoning_depth : String) (preferences : Option Preferences) : String :=
  assemble
    (build_context_component query query_analysis preferences)
    (build_request_component query reasoning_depth query_analysis)
    (build_examples_component query query_analysis)
    (build_augmentations_component query query_analysis)
    (build_tone_format_component query preferences)
    (build_evaluation_component reasoning_depth query_analysis)

/-- The flat projection of a successful evaluation (lines 217-231),
keys in insertion order, recommendations truncated to five. -/
def projectEvaluation (ev : EvaluationResult) : List (String × RVal) :=
  [("overall_score", RVal.num ev.overall_score),
   ("overall_confidence", RVal.num ev.overall_confidence),
   ("compliance_score", RVal.num ev.compliance_score),
   ("rigor_level", RVal.str ev.rigor_level.value),
   ("is_passing", RVal.boolV ev.is_passing),
   ("needs_revision", RVal.boolV ev.needs_revision),
   ("flags", RVal.listStr ev.all_flags),
   ("critical_issues", RVal.listStr ev.critical_issues),
   ("recommendations", RVal.listStr (ev.improvement_recommendations.take 5)),
   ("step_scores", RVal.pairs ev.step_results)]

/-- Lines 205-247: build the document, then optionally call the
evaluator inside its own try/except — an evaluator failure is converted
into a report with a single `error` key and never discards the
document. -/
def mainPath (ev : Evaluator) (context : Context) (preferences : Option Preferences)
    (include_evaluation : Bool) (query : String) (query_analysis : QueryAnalysis)
    (reasoning_depth : String) : GenOutcome :=
  let create_prompt := buildDocument query query_analysis reasoning_depth preferences
  if include_evaluation then
    let rigor := determine_rigor_level reasoning_depth query_analysis
    match ev create_prompt context rigor with
    | .ok result => .withReport create_prompt (projectEvaluation result)
    | .error msg =>
      .withReport create_prompt [("error", RVal.str ("Evaluation failed: " ++ msg))]
  else .single create_prompt

/-- The `str(e)` text of the `AttributeError` raised by
`query.strip()` when the resolved query is a Python `int`. -/
def stripAttributeError : String := "'int' object has no attribute 'strip'"

/-- `CreateAgent.generate_prompt` (lines 122-255).  The outer
try/except is explicit: the only raising operation on well-typed
dictionary inputs is `.strip()` on a non-string query value, which
lands in the outer handler; the empty-query validation and the
evaluator's own try/except are modelled branch for branch. -/
def generate_prompt (ev : Evaluator) (context : Context)
    (preferences : Option Preferences) (include_evaluation : Bool) : GenOutcome :=
  match resolvedQuery context with
  | .int _ =>
    let msg := "Generation failed: " ++ stripAttributeError
    let error_prompt := generate_error_prompt msg
    if include_evaluation then
      .withReport error_prompt [("error", RVal.str msg), ("evaluation", RVal.noneV)]
    else .single error_prompt
  | .str q =>
    let query_analysis := context.query_analysis.getD {}
    let reasoning_depth := context.reasoning_depth.getD "intermediate"
    if pyStrip q = "" then
      if context.isEmptyDict then
        mainPath ev context preferences include_evaluation
          "Provide helpful assistance" query_analysis reasoning_depth
      else
        let error_prompt := generate_error_prompt "Empty query provided"
        if include_evaluation then
          .withReport error_prompt
            [("error", RVal.str "Empty query provided"), ("evaluation", RVal.noneV)]
        else .single error_prompt
    else
      mainPath ev context preferences include_evaluation
        q query_analysis reasoning_depth

end CreateAgent

namespace CreateAgent

/-! ## Counting markdown `##`-level headings

A line-start `"## "` (an H2 heading marker, excluding `###`) is
recognized by a four-state automaton over the characters: state 1 means
"just after a newline / at the document start", states 2 and 3 record a
matched `"\n#"` / `"\n##"`, and completing `"\n## "` bumps the counter.
Folding the automaton over a string counts exactly the lines that begin
with `"## "`; `List.foldl_append` makes the count compositional over
string concatenation. -/

/-- One automaton step: `(state, count) → char → (state, count)`. -/
def hstep : Nat × Nat → Char → Nat × Nat
  | (st, n), c =>
    if c = '\n' then (1, n)
    else if st = 1 ∧ c = '#' then (2, n)
    else if st = 2 ∧ c = '#' then (3, n)
    else if st = 3 ∧ c = ' ' then (0, n + 1)
    else (0, n)

/-- Run the automaton from state `st` with count 0. -/
def runL (st : Nat) (l : List Char) : Nat × Nat := l.foldl hstep (st, 0)

/-- Number of lines of `s` that begin with `"## "` (the document start
counts as a line start). -/
def hcount (s : String) : Nat := (runL 1 s.data).2

theorem hstep_shift (st n : Nat) (c : Char) :
    hstep (st, n) c = ((hstep (st, 0) c).1, n + (hstep (st, 0) c).2) := by
  simp only [hstep]
  split
  · simp
  · split
    · simp
    · split
      · simp
      · split <;> simp

theorem foldl_hstep_shift (l : List Char) :
    ∀ st n, l.foldl hstep (st, n) = ((runL st l).1, n + (runL st l).2) := by
  induction l with
  | nil => intro st n; simp [runL]
  | cons c t ih =>
    intro st n
    have hl : runL st (c :: t) = ((runL (hstep (st, 0) c).1 t).1,
        (hstep (st, 0) c).2 + (runL (hstep (st, 0) c).1 t).2) := by
      show t.foldl hstep (hstep (st, 0) c) = _
      rw [show hstep (st, 0) c = ((hstep (st, 0) c).1, (hstep (st, 0) c).2) from rfl]
      exact ih _ _
    calc (c :: t).foldl hstep (st, n)
        = t.foldl hstep (hstep (st, n) c) := rfl
      _ = t.foldl hstep ((hstep (st, 0) c).1, n + (hstep (st, 0) c).2) := by
          rw [hstep_shift]
      _ = ((runL (hstep (st, 0) c).1 t).1,
            n + (hstep (st, 0) c).2 + (runL (hstep (st, 0) c).1 t).2) := ih _ _
      _ = ((runL st (c :: t)).1, n + (runL st (c :: t)).2) := by
          rw [hl]; simp [Nat.add_assoc]

theorem runL_append (st : Nat) (a b : List Char) :
    runL st (a ++ b) =
      ((runL (runL st a).1 b).1, (runL st a).2 + (runL (runL st a).1 b).2) := by
  show (a ++ b).foldl hstep (st, 0) = _
  rw [List.foldl_append]
  show b.foldl hstep (runL st a) = _
  rw [show runL st a = ((runL st a).1, (runL st a).2) from rfl]
  exact foldl_hstep_shift b _ _

theorem runL_append_snd (st : Nat) (a b : List Char) :
    (runL st (a ++ b)).2 = (runL st a).2 + (runL (runL st a).1 b).2 := by
  rw [runL_append]

/-- A leading newline resets the automaton to state 1 whatever the
entry state: the pieces between section bodies all start with `'\n'`. -/
theorem runL_cons_nl (st : Nat) (l : List Char) : runL st ('\n' :: l) = runL 1 l := by
  show l.foldl hstep (hstep (st, 0) '\n') = l.foldl hstep (1, 0)
  simp [hstep]

/-- A character list free of `'\n'` and `'#'`: such a fragment can
neither open nor continue a heading marker. -/
def tameL (l : List Char) : Bool := l.all fun c => !(c == '\n') && !(c == '#')

theorem tameL_append (a b : List Char) :
    tameL (a ++ b) = (tameL a && tameL b) := by
  simp [tameL, List.all_append]

/-- Running the automaton over a tame fragment from any non-3 state
produces no heading: a nonempty tame fragment lands in state 0, an
empty one stays put. -/
theorem runL_tame (l : List Char) :
    ∀ st, tameL l = true → st ≠ 3 → runL st l = (if l.isEmpty then st else 0, 0) := by
  induction l with
  | nil => intro st _ _; simp [runL]
  | cons c t ih =>
    intro st htame hst
    have htame' := htame
    simp only [tameL, List.all_cons, Bool.and_eq_true, Bool.not_eq_true',
      beq_eq_false_iff_ne, ne_eq] at htame'
    obtain ⟨⟨hc1, hc2⟩, ht'⟩ := htame'
    have hc : ¬(c = '\n') ∧ ¬(c = '#') := ⟨hc1, hc2⟩
    have ht : tameL t = true := by
      simp only [tameL, List.all_eq_true] at ht' ⊢
      exact ht'
    have hstep_eval : hstep (st, 0) c = (0, 0) := by
      simp only [hstep]
      rw [if_neg hc.1, if_neg (by rintro ⟨_, h⟩; exact hc.2 h),
        if_neg (by rintro ⟨_, h⟩; exact hc.2 h),
        if_neg (by rintro ⟨h, _⟩; exact hst h)]
    have : runL st (c :: t) = runL 0 t := by
      show t.foldl hstep (hstep (st, 0) c) = _
      rw [hstep_eval]; rfl
    rw [this, ih 0 ht (by decide)]
    simp

end CreateAgent

namespace CreateAgent

/-! ## The classifier outputs never contain a heading marker

Each helper draws its result from a fixed table of authored strings, so
running the automaton over any possible result from the entry state it
occupies inside its section template yields count 0 (and exit state 0
where the state matters). -/

/-- Any property of strings propagates through a rule table whose
entries and default all satisfy it. -/
theorem firstMatch_prop (P : String → Prop) :
    ∀ (l : List (Bool × String)) (d : String),
      (∀ p ∈ l, P p.2) → P d → P (firstMatch l d) := by
  intro l
  induction l with
  | nil => intro d _ hd; exact hd
  | cons p t ih =>
    intro d hl hd
    obtain ⟨c, r⟩ := p
    show P (if c then r else firstMatch t d)
    split
    · exact hl (c, r) (List.mem_cons_self _ _)
    · exact ih d (fun q hq => hl q (List.mem_cons_of_mem _ hq)) hd

theorem role_clean (query_type query : String) :
    runL 0 (determine_role_from_query_type query_type query).data = (0, 0) := by
  unfold determine_role_from_query_type
  apply firstMatch_prop (fun s => runL 0 s.data = (0, 0))
  · intro p hp
    fin_cases hp
    all_goals try dsimp only
    all_goals repeat' split
    all_goals decide
  · decide

theorem persona_clean (query_type role : String) :
    runL 0 (generate_persona_clause query_type role).data = (0, 0) := by
  unfold generate_persona_clause
  apply firstMatch_prop (fun s => runL 0 s.data = (0, 0))
  · intro p hp
    fin_cases hp
    all_goals try dsimp only
    all_goals decide
  · decide

theorem goal_clean (query : String) (qa : QueryAnalysis) :
    runL 0 (define_response_goal query qa).data = (0, 0) := by
  unfold define_response_goal
  try dsimp only
  repeat' split
  all_goals decide

theorem verbs_clean (query : String) :
    runL 0 (extract_action_verbs query).data = (0, 0) := by
  unfold extract_action_verbs
  try dsimp only
  repeat' split
  all_goals decide

theorem format_clean (query : String) (qa : QueryAnalysis) :
    runL 0 (determine_output_format query qa).data = (0, 0) := by
  unfold determine_output_format
  try dsimp only
  repeat' split
  all_goals decide

theorem tier_clean (reasoning_depth : String) (qa : QueryAnalysis) :
    runL 0 (select_appropriate_tier reasoning_depth qa).data = (0, 0) := by
  unfold select_appropriate_tier tier_mapping
  dsimp only
  repeat' split
  all_goals decide

theorem evidence_clean (qa : QueryAnalysis) :
    runL 1 (determine_evidence_requirements qa).data = (0, 0) := by
  unfold determine_evidence_requirements
  dsimp only
  repeat' split
  all_goals decide

theorem frameworks_clean (query : String) (qa : QueryAnalysis) :
    runL 1 (select_analytical_frameworks query qa).data = (0, 0) := by
  unfold select_analytical_frameworks frameworksList
  dsimp only
  repeat' split
  all_goals first | decide | simp_all

theorem inline_label_clean (reasoning_depth complexity : String) :
    runL 0 (inlineRigorLabel reasoning_depth complexity).data = (0, 0) := by
  unfold inlineRigorLabel
  try dsimp only
  repeat' split
  all_goals decide

end CreateAgent

namespace CreateAgent

/-! ## Background, tone and complexity fragments -/

/-- All strings in a list are tame. -/
def tameAll (l : List String) : Bool := l.all fun s => tameL s.data

theorem tameAll_append (a b : List String) :
    tameAll (a ++ b) = (tameAll a && tameAll b) := by
  simp [tameAll, List.all_append]

theorem pyJoin_tame : ∀ l : List String, tameAll l = true →
    tameL (pyJoin ". " l).data = true := by
  intro l
  induction l with
  | nil => intro _; decide
  | cons x t ih =>
    intro h
    have hx : tameL x.data = true := by
      simp only [tameAll, List.all_cons, Bool.and_eq_true] at h
      exact h.1
    have ht : tameAll t = true := by
      simp only [tameAll, List.all_cons, Bool.and_eq_true] at h
      exact h.2
    cases t with
    | nil => exact hx
    | cons y t2 =>
      show tameL (x ++ ". " ++ pyJoin ". " (y :: t2)).data = true
      rw [String.data_append, String.data_append, tameL_append, tameL_append]
      rw [hx, ih ht]
      decide

theorem bgPatternElems_tame (ql : String) : tameAll (bgPatternElems ql) = true := by
  unfold bgPatternElems
  simp only [tameAll_append, Bool.and_eq_true]
  refine ⟨⟨⟨⟨⟨⟨?_, ?_⟩, ?_⟩, ?_⟩, ?_⟩, ?_⟩, ?_⟩ <;> (split <;> decide)

theorem bgElems_tame (q : String) (qa : QueryAnalysis) :
    tameAll (bgElems q qa) = true := by
  unfold bgElems
  dsimp only
  split
  · decide
  · rw [tameAll_append, Bool.and_eq_true]
    constructor
    · unfold bgComplexityElems
      repeat' split
      all_goals decide
    · exact bgPatternElems_tame _

theorem background_clean (q : String) (qa : QueryAnalysis) :
    runL 0 (extract_background_context q qa).data = (0, 0) := by
  unfold extract_background_context
  have htame : tameL (pyJoin ". " (bgElems q qa) ++ ".").data = true := by
    rw [String.data_append, tameL_append, pyJoin_tame _ (bgElems_tame q qa)]
    decide
  rw [runL_tame _ 0 htame (by decide)]
  simp

/-- The valid values of the `complexity` key of a well-formed
`query_analysis` mapping (spec §3: one of `simple`, `intermediate`,
`complex`, or absent with default `intermediate`). -/
def wellFormedQA (qa : QueryAnalysis) : Prop :=
  qa.complexity = none ∨ qa.complexity = some "simple" ∨
    qa.complexity = some "intermediate" ∨ qa.complexity = some "complex"

instance (qa : QueryAnalysis) : Decidable (wellFormedQA qa) := by
  unfold wellFormedQA
  exact inferInstance

theorem cx_clean (qa : QueryAnalysis) (hqa : wellFormedQA qa) :
    runL 0 (qa.complexity.getD "intermediate").data = (0, 0) := by
  rcases hqa with h | h | h | h <;> rw [h] <;> decide

theorem tone_clean (prefs : Option Preferences)
    (htone : tameL (pyTitle (toneOf prefs)).data = true) :
    runL 0 (pyTitle (toneOf prefs)).data = (0, 0) := by
  rw [runL_tame _ 0 htone (by decide)]
  simp

end CreateAgent

namespace CreateAgent

/-! ## The six section bodies contain no heading marker -/

/-- Peel one fragment with fully known automaton behavior off a
concatenation. -/
theorem peel (st s1 : Nat) (a b : List Char) (ha : runL st a = (s1, 0))
    (hb : (runL s1 b).2 = 0) : (runL st (a ++ b)).2 = 0 := by
  rw [runL_append_snd, ha]
  simpa using hb

/-- On a fragment that starts with a newline the automaton forgets its
entry state. -/
theorem runL_head_nl (st : Nat) (l : List Char) (h : l.head? = some '\n') :
    runL st l = runL 1 l := by
  cases l with
  | nil => simp at h
  | cons c t =>
    have hc : c = '\n' := by simpa using h
    subst hc
    rw [runL_cons_nl, runL_cons_nl]

theorem compC_clean (q : String) (qa : QueryAnalysis) (prefs : Option Preferences)
    (hqa : wellFormedQA qa) :
    (runL 1 (build_context_component q qa prefs).data).2 = 0 := by
  unfold build_context_component
  dsimp only
  simp only [String.data_append, List.append_assoc]
  apply peel 1 0
  · decide
  apply peel 0 0
  · exact role_clean _ _
  apply peel 0 0
  · decide
  apply peel 0 0
  · exact persona_clean _ _
  apply peel 0 0
  · decide
  apply peel 0 0
  · exact background_clean _ _
  apply peel 0 0
  · decide
  apply peel 0 0
  · exact goal_clean _ _
  apply peel 0 0
  · decide
  apply peel 0 0
  · exact cx_clean _ hqa
  decide

end CreateAgent

namespace CreateAgent

theorem compR_clean (q reasoning_depth : String) (qa : QueryAnalysis)
    (hq : (runL 0 q.data).2 = 0) :
    (runL 1 (build_request_component q reasoning_depth qa).data).2 = 0 := by
  unfold build_request_component
  dsimp only
  simp only [String.data_append, List.append_assoc]
  apply peel 1 0
  · decide
  rw [runL_append_snd, hq, runL_head_nl _ _ (by rfl)]
  simp only [Nat.zero_add]
  apply peel 1 0
  · decide
  apply peel 0 0
  · exact format_clean _ _
  apply peel 0 0
  · decide
  apply peel 0 0
  · exact tier_clean _ _
  apply peel 0 0
  · decide
  apply peel 0 0
  · exact verbs_clean _
  decide

theorem compE_clean (q : String) (qa : QueryAnalysis) :
    (runL 1 (build_examples_component q qa).data).2 = 0 := by
  unfold build_examples_component
  split <;> decide

theorem compA_clean (q : String) (qa : QueryAnalysis) :
    (runL 1 (build_augmentations_component q qa).data).2 = 0 := by
  unfold build_augmentations_component
  dsimp only
  simp only [String.data_append, List.append_assoc]
  apply peel 1 1
  · decide
  apply peel 1 0
  · exact frameworks_clean _ _
  apply peel 0 1
  · decide
  apply peel 1 0
  · exact evidence_clean _
  decide

theorem compT_clean (q : String) (prefs : Option Preferences)
    (htone : tameL (pyTitle (toneOf prefs)).data = true) :
    (runL 1 (build_tone_format_component q prefs).data).2 = 0 := by
  unfold build_tone_format_component
  dsimp only
  simp only [String.data_append, List.append_assoc]
  apply peel 1 0
  · decide
  apply peel 0 0
  · exact tone_clean prefs htone
  decide

theorem compV_clean (reasoning_depth : String) (qa : QueryAnalysis) :
    (runL 1 (build_evaluation_component reasoning_depth qa).data).2 = 0 := by
  unfold build_evaluation_component
  dsimp only
  simp only [String.data_append, List.append_assoc]
  apply peel 1 0
  · decide
  apply peel 0 0
  · exact inline_label_clean _ _
  decide

end CreateAgent

namespace CreateAgent

/-- A concrete leading fragment with known automaton behavior
contributes its count and hands its exit state to the rest. -/
theorem seq_count (L rest : List Char) (k s1 m : Nat)
    (hL : runL 1 L = (s1, k)) (hrest : (runL s1 rest).2 = m) :
    (runL 1 (L ++ rest)).2 = k + m := by
  rw [runL_append_snd, hL, hrest]

/-- A clean body contributes no headings, and the following fragment
(which starts with a newline) forgets the body's exit state. -/
theorem body_skip (x rest : List Char) (m : Nat) (hx : (runL 1 x).2 = 0)
    (hhead : rest.head? = some '\n') (hrest : (runL 1 rest).2 = m) :
    (runL 1 (x ++ rest)).2 = m := by
  have h2 := runL_head_nl (runL 1 x).1 rest hhead
  rw [runL_append_snd, hx, h2, hrest]
  exact Nat.zero_add m

/-- The assembled document contains exactly six `##` heading lines —
the six of the fixed template — whenever the six section bodies are
clean. -/
theorem assemble_hcount (c r e a t v : String)
    (hc : (runL 1 c.data).2 = 0) (hr : (runL 1 r.data).2 = 0)
    (he : (runL 1 e.data).2 = 0) (ha : (runL 1 a.data).2 = 0)
    (ht : (runL 1 t.data).2 = 0) (hv : (runL 1 v.data).2 = 0) :
    hcount (assemble c r e a t v) = 6 := by
  unfold hcount assemble
  simp only [String.data_append, List.append_assoc]
  exact seq_count _ _ 1 1 5 (by decide)
    (body_skip _ _ 5 hc rfl
      (seq_count _ _ 1 1 4 (by decide)
        (body_skip _ _ 4 hr rfl
          (seq_count _ _ 1 1 3 (by decide)
            (body_skip _ _ 3 he rfl
              (seq_count _ _ 1 1 2 (by decide)
                (body_skip _ _ 2 ha rfl
                  (seq_count _ _ 1 1 1 (by decide)
                    (body_skip _ _ 1 ht rfl
                      (seq_count _ _ 1 1 0 (by decide)
                        (body_skip _ _ 0 hv rfl (by decide))))))))))))

end CreateAgent

namespace CreateAgent

/-! ## Definitions used by the claim theorems -/

/-- The spec's rigor-selection rule (§4.4), written from the spec text
for comparison with the embedded `determine_rigor_level`. -/
def rigorSpec (reasoning_depth complexity : String) : RigorLevel :=
  if reasoning_depth = "comprehensive" ∨ complexity = "complex" then .ADVANCED
  else if reasoning_depth = "basic" ∧ complexity = "simple" then .BASIC
  else .STANDARD

/-- The seven (reasoning_depth, complexity) pairs listed in the source's
`tier_mapping` dictionary. -/
def tierListedPairs : List (String × String) :=
  [("basic", "simple"), ("basic", "intermediate"), ("intermediate", "simple"),
   ("intermediate", "intermediate"), ("comprehensive", "simple"),
   ("comprehensive", "intermediate"), ("comprehensive", "complex")]

/-- Count blank-separated words, as Python's `len(s.split())`. -/
def countWords : List Char → Bool → Nat
  | [], _ => 0
  | c :: t, inWord =>
    if c = ' ' then countWords t false
    else (if inWord then 0 else 1) + countWords t true

/-- Number of words of a string. -/
def wordCount (s : String) : Nat := countWords s.data false

/-- A concrete always-raising evaluator, for closed instantiations. -/
def ev0 : Evaluator := fun _ _ _ => .error "evaluator unavailable"

/-! ## Claim C4 -/

/-- **C4.** For every (reasoning_depth, complexity) pair,
`_determine_rigor_level` returns ADVANCED when the depth is
`comprehensive` or the complexity is `complex`; otherwise BASIC exactly
for (`basic`, `simple`); otherwise STANDARD — and in particular
(`comprehensive`, `simple`) ↦ ADVANCED, (`basic`, `intermediate`) ↦
STANDARD (not BASIC), (`basic`, `simple`) ↦ BASIC. -/
theorem c4_rigor_selection :
    (∀ (d : String) (qa : QueryAnalysis),
      determine_rigor_level d qa = rigorSpec d (qa.complexity.getD "intermediate")) ∧
    determine_rigor_level "comprehensive" ⟨none, some "simple"⟩ = .ADVANCED ∧
    determine_rigor_level "basic" ⟨none, some "intermediate"⟩ = .STANDARD ∧
    determine_rigor_level "basic" ⟨none, some "simple"⟩ = .BASIC := by
  refine ⟨fun d qa => rfl, by decide, by decide, by decide⟩

/-! ## Claim C3 -/

/-- **C3 (counterexample).** The claim asserts that the inline rigor
label of the Evaluation section is "Standard" for
`reasoning_depth == "intermediate"` regardless of complexity; but at
complexity `"complex"` the inline computation yields "Advanced". -/
theorem c3_counterexample :
    inlineRigorLabel "intermediate" "complex" = "Advanced" ∧
    inlineRigorLabel "intermediate" "complex" ≠ "Standard" := by
  constructor <;> decide

/-- **C3 (amended).** The two rigor computations differ, but not as
stated: the inline label is "Standard" for `intermediate` depth only
when complexity is not `"complex"`; the selector does return ADVANCED
for every `complex` complexity, but so does the inline label, so the
two agree there; the genuine divergence is at
(`basic`, `intermediate`), where the inline label is "Basic" while the
selector returns STANDARD. -/
theorem c3_rigor_divergence :
    (∀ c : String, c ≠ "complex" → inlineRigorLabel "intermediate" c = "Standard") ∧
    (∀ (d : String) (qa : QueryAnalysis), qa.complexity.getD "intermediate" = "complex" →
      determine_rigor_level d qa = .ADVANCED ∧
      inlineRigorLabel d (qa.complexity.getD "intermediate") = "Advanced") ∧
    (inlineRigorLabel "basic" "intermediate" = "Basic" ∧
      determine_rigor_level "basic" ⟨none, some "intermediate"⟩ = .STANDARD ∧
      rigorDisplay (determine_rigor_level "basic" ⟨none, some "intermediate"⟩) ≠
        inlineRigorLabel "basic" "intermediate") := by
  refine ⟨?_, ?_, by decide, by decide, by decide⟩
  · intro c hc
    unfold inlineRigorLabel
    rw [if_neg, if_pos rfl]
    rintro (h | h)
    · exact absurd h (by decide)
    · exact hc h
  · intro d qa h
    constructor
    · unfold determine_rigor_level
      dsimp only
      rw [h, if_pos (Or.inr rfl)]
    · unfold inlineRigorLabel
      rw [h, if_pos (Or.inr rfl)]

/-- Closed instantiation of `c3_rigor_divergence`. -/
theorem c3_rigor_divergence_witness :
    inlineRigorLabel "intermediate" "simple" = "Standard" ∧
    determine_rigor_level "basic" ⟨none, some "complex"⟩ = .ADVANCED :=
  ⟨c3_rigor_divergence.1 "simple" (by decide),
   (c3_rigor_divergence.2.1 "basic" ⟨none, some "complex"⟩ (by decide)).1⟩

/-! ## Claim C6 -/

/-- **C6.** Tier selection is a sparse lookup over exactly the seven
listed pairs; every listed pair maps to its label, and every unlisted
pair — in particular (`intermediate`, `complex`) — falls back to the
single named default tier, which is none of the seven listed labels. -/
theorem c6_tier_sparse_lookup :
    (select_appropriate_tier "basic" ⟨none, some "simple"⟩ =
        "Tier 3: Summary (200-400 words) - Concise overview" ∧
      select_appropriate_tier "basic" ⟨none, some "intermediate"⟩ =
        "Tier 4: Overview (400-900 words) - Analyst briefing" ∧
      select_appropriate_tier "intermediate" ⟨none, some "simple"⟩ =
        "Tier 4: Overview (400-900 words) - Analyst briefing" ∧
      select_appropriate_tier "intermediate" ⟨none, some "intermediate"⟩ =
        "Tier 6: In-Depth Analysis (2000-5000 words) - Professional memo" ∧
      select_appropriate_tier "comprehensive" ⟨none, some "simple"⟩ =
        "Tier 6: In-Depth Analysis (2000-5000 words) - Professional memo" ∧
      select_appropriate_tier "comprehensive" ⟨none, some "intermediate"⟩ =
        "Tier 8: Comprehensive Study (8000-15000 words) - Research report" ∧
      select_appropriate_tier "comprehensive" ⟨none, some "complex"⟩ =
        "Tier 9: Expert Analysis (15000-30000 words) - Detailed study") ∧
    (∀ d c : String, (d, c) ∉ tierListedPairs →
      select_appropriate_tier d ⟨none, some c⟩ =
        "Tier 5: Detailed Response (900-2000 words) - Professional analysis") ∧
    "Tier 5: Detailed Response (900-2000 words) - Professional analysis" ∉
      ["Tier 3: Summary (200-400 words) - Concise overview",
       "Tier 4: Overview (400-900 words) - Analyst briefing",
       "Tier 6: In-Depth Analysis (2000-5000 words) - Professional memo",
       "Tier 8: Comprehensive Study (8000-15000 words) - Research report",
       "Tier 9: Expert Analysis (15000-30000 words) - Detailed study"] := by
  refine ⟨by decide, ?_, by decide⟩
  intro d c h
  simp only [tierListedPairs, List.mem_cons, List.not_mem_nil, or_false,
    Prod.mk.injEq, not_or] at h
  obtain ⟨h1, h2, h3, h4, h5, h6, h7⟩ := h
  unfold select_appropriate_tier tier_mapping
  dsimp only
  simp only [Option.getD_some]
  rw [if_neg h1, if_neg h2, if_neg h3, if_neg h4, if_neg h5, if_neg h6, if_neg h7]
  rfl

/-- Closed instantiation of `c6_tier_sparse_lookup` at the unlisted
pair (`intermediate`, `complex`). -/
theorem c6_tier_sparse_lookup_witness :
    select_appropriate_tier "intermediate" ⟨none, some "complex"⟩ =
      "Tier 5: Detailed Response (900-2000 words) - Professional analysis" :=
  c6_tier_sparse_lookup.2.1 "intermediate" "complex" (by decide)

end CreateAgent

namespace CreateAgent

/-- A rule table returns its first entry's result when that entry's
condition holds. -/
theorem firstMatch_head_true (c : Bool) (r : String) (t : List (Bool × String))
    (d : String) (h : c = true) : firstMatch ((c, r) :: t) d = r := by
  show (if c then r else firstMatch t d) = r
  rw [h]
  simp

/-! ## Claim C7 -/

/-- The security keyword set of the role chain (line 439 of the
source). -/
def securityKeywords : List String :=
  ["security", "threat", "vulnerability", "cyber", "attack", "defense"]

/-- The comparison keyword set of the role chain (line 460 of the
source). -/
def comparisonKeywords : List String := ["compare", "vs", "versus", "difference"]

/-- **C7.** Role determination checks the security keyword set before
the comparison keyword set: any query containing at least one security
keyword (security, threat, vulnerability, cyber, attack, defense) and
at least one comparison keyword (compare, vs, versus, difference)
resolves to one of the three security-domain roles and never to
"technology consultant". -/
theorem c7_security_checked_before_comparison (query_type query : String)
    (hsec : ∃ kw ∈ securityKeywords, strContains (pyLower query) kw = true)
    (hcmp : ∃ kw ∈ comparisonKeywords, strContains (pyLower query) kw = true) :
    (determine_role_from_query_type query_type query = "network security specialist" ∨
      determine_role_from_query_type query_type query = "cloud security architect" ∨
      determine_role_from_query_type query_type query = "cybersecurity architect") ∧
    determine_role_from_query_type query_type query ≠ "technology consultant" := by
  have hck : ∃ kw ∈ comparisonKeywords, strContains (pyLower query) kw = true := hcmp
  have h1 : anyKw (pyLower query)
      ["security", "threat", "vulnerability", "cyber", "attack", "defense"] = true := by
    obtain ⟨kw, hmem, hkw⟩ := hsec
    exact List.any_eq_true.mpr ⟨kw, hmem, hkw⟩
  unfold determine_role_from_query_type
  dsimp only
  rw [firstMatch_head_true _ _ _ _ h1]
  constructor
  · split
    · exact Or.inl rfl
    · split
      · exact Or.inr (Or.inl rfl)
      · exact Or.inr (Or.inr rfl)
  · split
    · decide
    · split
      · decide
      · decide

/-- Closed instantiation of `c7_security_checked_before_comparison`, at
a query using a non-literal keyword pair ("threat" / "versus"). -/
theorem c7_security_checked_before_comparison_witness :
    (determine_role_from_query_type "general" "Rank threat models versus checklists" =
        "network security specialist" ∨
      determine_role_from_query_type "general" "Rank threat models versus checklists" =
        "cloud security architect" ∨
      determine_role_from_query_type "general" "Rank threat models versus checklists" =
        "cybersecurity architect") ∧
    determine_role_from_query_type "general" "Rank threat models versus checklists" ≠
      "technology consultant" :=
  c7_security_checked_before_comparison "general" "Rank threat models versus checklists"
    (by decide) (by decide)

/-! ## Claim C8 -/

/-- Appending a nonempty string keeps a string nonempty. -/
theorem append_ne_empty_of_right (s t : String) (ht : t ≠ "") : s ++ t ≠ "" := by
  intro h
  apply ht
  have hd := congrArg String.data h
  rw [String.data_append] at hd
  have : t.data = [] := (List.append_eq_nil.mp hd).2
  cases t with
  | mk l => cases this; rfl

/-- **C8.** Every classification field is always populated: each
classifier helper returns a non-empty string on every input, falling
through to an explicit default rather than to an empty value. -/
theorem c8_every_field_populated :
    (∀ qt q : String, determine_role_from_query_type qt q ≠ "") ∧
    (∀ qt role : String, generate_persona_clause qt role ≠ "") ∧
    (∀ (q : String) (qa : QueryAnalysis), extract_background_context q qa ≠ "") ∧
    (∀ (q : String) (qa : QueryAnalysis), define_response_goal q qa ≠ "") ∧
    (∀ (q : String) (qa : QueryAnalysis), select_analytical_frameworks q qa ≠ "") ∧
    (∀ qa : QueryAnalysis, determine_evidence_requirements qa ≠ "") ∧
    (∀ q : String, extract_action_verbs q ≠ "") ∧
    (∀ (q : String) (qa : QueryAnalysis), determine_output_format q qa ≠ "") := by
  refine ⟨?_, ?_, ?_, ?_, ?_, ?_, ?_, ?_⟩
  · intro qt q
    unfold determine_role_from_query_type
    apply firstMatch_prop (fun s => s ≠ "")
    · intro p hp
      fin_cases hp
      all_goals try dsimp only
      all_goals repeat' split
      all_goals decide
    · decide
  · intro qt role
    unfold generate_persona_clause
    apply firstMatch_prop (fun s => s ≠ "")
    · intro p hp
      fin_cases hp
      all_goals try dsimp only
      all_goals decide
    · decide
  · intro q qa
    unfold extract_background_context
    exact append_ne_empty_of_right _ _ (by decide)
  · intro q qa
    unfold define_response_goal
    repeat' split
    all_goals decide
  · intro q qa
    unfold select_analytical_frameworks frameworksList
    dsimp only
    repeat' split
    all_goals first | decide | simp_all
  · intro qa
    unfold determine_evidence_requirements
    dsimp only
    repeat' split
    all_goals decide
  · intro q
    unfold extract_action_verbs
    try dsimp only
    repeat' split
    all_goals decide
  · intro q qa
    unfold determine_output_format
    try dsimp only
    repeat' split
    all_goals decide

/-! ## Claim C9 -/

/-- **C9.** Every persona clause the table can produce has at most
twelve words — a data-authoring invariant of the authored strings, not
a runtime truncation. -/
theorem c9_persona_at_most_twelve_words (query_type role : String) :
    wordCount (generate_persona_clause query_type role) ≤ 12 := by
  unfold generate_persona_clause
  apply firstMatch_prop (fun s => wordCount s ≤ 12)
  · intro p hp
    fin_cases hp
    all_goals try dsimp only
    all_goals decide
  · decide

end CreateAgent

namespace CreateAgent

/-! ## Behavior of `generate_prompt` itself -/

/-- The primary document of the main path is the assembled six-section
document, whatever the evaluator does. -/
theorem mainPath_document (ev : Evaluator) (ctx : Context) (prefs : Option Preferences)
    (incl : Bool) (q : String) (qa : QueryAnalysis) (d : String) :
    (mainPath ev ctx prefs incl q qa d).document = buildDocument q qa d prefs := by
  unfold mainPath
  dsimp only
  split
  · split <;> rfl
  · rfl

/-- Like `body_skip`, but the body may itself contribute headings. -/
theorem body_count (x rest : List Char) (k m : Nat) (hx : (runL 1 x).2 = k)
    (hhead : rest.head? = some '\n') (hrest : (runL 1 rest).2 = m) :
    (runL 1 (x ++ rest)).2 = k + m := by
  have h2 := runL_head_nl (runL 1 x).1 rest hhead
  rw [runL_append_snd, hx, h2, hrest]

/-- Heading count of an assembled document with arbitrary per-body
heading counts: the template's six plus whatever the bodies inject. -/
theorem assemble_hcount_add (c r e a t v : String) (kc kr ke ka kt kv : Nat)
    (hc : (runL 1 c.data).2 = kc) (hr : (runL 1 r.data).2 = kr)
    (he : (runL 1 e.data).2 = ke) (ha : (runL 1 a.data).2 = ka)
    (ht : (runL 1 t.data).2 = kt) (hv : (runL 1 v.data).2 = kv) :
    hcount (assemble c r e a t v) = 6 + (kc + kr + ke + ka + kt + kv) := by
  unfold hcount assemble
  simp only [String.data_append, List.append_assoc]
  have harith :
      1 + (kc + (1 + (kr + (1 + (ke + (1 + (ka + (1 + (kt + (1 + (kv + 0))))))))))) =
        6 + (kc + kr + ke + ka + kt + kv) := by omega
  rw [← harith]
  exact seq_count _ _ 1 1 _ (by decide)
    (body_count _ _ kc _ hc (by rfl)
      (seq_count _ _ 1 1 _ (by decide)
        (body_count _ _ kr _ hr (by rfl)
          (seq_count _ _ 1 1 _ (by decide)
            (body_count _ _ ke _ he (by rfl)
              (seq_count _ _ 1 1 _ (by decide)
                (body_count _ _ ka _ ha (by rfl)
                  (seq_count _ _ 1 1 _ (by decide)
                    (body_count _ _ kt _ ht (by rfl)
                      (seq_count _ _ 1 1 _ (by decide)
                        (body_count _ _ kv _ hv (by rfl) (by decide))))))))))))

end CreateAgent

namespace CreateAgent

/-! ## Claim C1 -/

/-- **C1 (counterexample).** Two inputs satisfying the claim's premises
(resolved query a non-empty string, well-formed analysis) for which the
output does not contain exactly six `##` section headings: a
whitespace-only query takes the error path (one heading), and a query
that itself contains a `"\n## "` line injects a seventh heading into
the Request section. -/
theorem c1_counterexample :
    (resolvedQuery { query := some (.str "   ") } = .str "   " ∧
      "   " ≠ "" ∧ wellFormedQA ({} : QueryAnalysis) ∧
      hcount (generate_prompt ev0 { query := some (.str "   ") } none false).document
        = 1) ∧
    (resolvedQuery { query := some (.str "List pros\n## Injected\nagainst") } =
        .str "List pros\n## Injected\nagainst" ∧
      pyStrip "List pros\n## Injected\nagainst" ≠ "" ∧
      hcount (generate_prompt ev0
          { query := some (.str "List pros\n## Injected\nagainst") } none
          false).document = 7) := by
  refine ⟨⟨rfl, by decide, by decide, by decide⟩, rfl, by decide, ?_⟩
  have hdoc : (generate_prompt ev0
      { query := some (.str "List pros\n## Injected\nagainst") } none false).document =
      buildDocument "List pros\n## Injected\nagainst" {} "intermediate" none := rfl
  rw [hdoc]
  unfold buildDocument
  rw [show (7 : Nat) = 6 + (0 + 1 + 0 + 0 + 0 + 0) from rfl]
  exact assemble_hcount_add _ _ _ _ _ _ 0 1 0 0 0 0
    (by decide) (by decide) (by decide) (by decide) (by decide) (by decide)

/-- **C1 (amended).** For every context whose resolved query is a
string that is non-empty after stripping and contains no `"## "` line
start of its own, with a well-formed `query_analysis` (complexity among
the three documented values or absent) and a tone preference whose
title-cased form contains no newline or `'#'`, `generate_prompt`
returns (it is a total function: no exception escapes) a document that
is the fixed template instantiated with the six section bodies — one
`#`-level title, six `##`-level headings in the fixed C, R, E, A, T, E
order, the fixed footer — and the document contains exactly six `##`
heading lines. -/
theorem c1_six_sections (ev : Evaluator) (ctx : Context) (prefs : Option Preferences)
    (incl : Bool) (q : String)
    (hq : resolvedQuery ctx = .str q) (hne : pyStrip q ≠ "")
    (hclean : (runL 0 q.data).2 = 0)
    (hqa : wellFormedQA (ctx.query_analysis.getD {}))
    (htone : tameL (pyTitle (toneOf prefs)).data = true) :
    ∃ c r e a t v : String,
      (generate_prompt ev ctx prefs incl).document = assemble c r e a t v ∧
      hcount (generate_prompt ev ctx prefs incl).document = 6 := by
  have hdoc : (generate_prompt ev ctx prefs incl).document =
      buildDocument q (ctx.query_analysis.getD {})
        (ctx.reasoning_depth.getD "intermediate") prefs := by
    unfold generate_prompt
    split
    · next n heq =>
        rw [hq] at heq
        exact absurd heq (by intro h; cases h)
    · next s heq =>
        rw [hq] at heq
        injection heq with h
        subst h
        rw [if_neg hne]
        exact mainPath_document ev ctx prefs incl q _ _
  refine ⟨build_context_component q (ctx.query_analysis.getD {}) prefs,
    build_request_component q (ctx.reasoning_depth.getD "intermediate")
      (ctx.query_analysis.getD {}),
    build_examples_component q (ctx.query_analysis.getD {}),
    build_augmentations_component q (ctx.query_analysis.getD {}),
    build_tone_format_component q prefs,
    build_evaluation_component (ctx.reasoning_depth.getD "intermediate")
      (ctx.query_analysis.getD {}), ?_, ?_⟩
  · rw [hdoc]; rfl
  · rw [hdoc]
    unfold buildDocument
    exact assemble_hcount _ _ _ _ _ _
      (compC_clean q _ prefs hqa)
      (compR_clean q _ _ hclean)
      (compE_clean q _)
      (compA_clean q _)
      (compT_clean q prefs htone)
      (compV_clean _ _)

/-- Closed instantiation of `c1_six_sections`. -/
theorem c1_six_sections_witness :
    ∃ c r e a t v : String,
      (generate_prompt ev0 { query := some (.str "Compare database options") }
          none false).document = assemble c r e a t v ∧
      hcount (generate_prompt ev0 { query := some (.str "Compare database options") }
          none false).document = 6 :=
  c1_six_sections ev0 { query := some (.str "Compare database options") } none false
    "Compare database options" rfl (by decide) (by decide) (by decide) (by decide)

/-! ## Claim C2 -/

/-- **C2.** Whenever the evaluator is reached (non-blank resolved query,
or blank query with fully empty context) and raises,
`generate_prompt` with `include_evaluation = True` still returns the
same fully-formed primary document the `include_evaluation = False`
call produces, paired with a report mapping whose only entry is the
`error` key; the failure never propagates and the document is never
discarded. -/
theorem c2_evaluator_failure_absorbed (msg : String) (ctx : Context)
    (prefs : Option Preferences) (q : String)
    (hq : resolvedQuery ctx = .str q)
    (hmain : pyStrip q ≠ "" ∨ ctx.isEmptyDict = true) :
    generate_prompt (fun _ _ _ => .error msg) ctx prefs true =
      .withReport
        ((generate_prompt (fun _ _ _ => .error msg) ctx prefs false).document)
        [("error", RVal.str ("Evaluation failed: " ++ msg))] := by
  unfold generate_prompt
  split
  · next n heq =>
      rw [hq] at heq
      exact absurd heq (by intro h; cases h)
  · next s heq =>
      rw [hq] at heq
      injection heq with h
      subst h
      by_cases hblank : pyStrip q = ""
      · rcases hmain with hne | hemp
        · exact absurd hblank hne
        · rw [if_pos hblank, if_pos hblank, hemp]
          rfl
      · rw [if_neg hblank, if_neg hblank]
        rfl

/-- Closed instantiation of `c2_evaluator_failure_absorbed`. -/
theorem c2_evaluator_failure_absorbed_witness :
    generate_prompt (fun _ _ _ => .error "service down")
        { query := some (.str "hello") } none true =
      .withReport
        ((generate_prompt (fun _ _ _ => .error "service down")
            { query := some (.str "hello") } none false).document)
        [("error", RVal.str ("Evaluation failed: " ++ "service down"))] :=
  c2_evaluator_failure_absorbed "service down" { query := some (.str "hello") }
    none "hello" rfl (Or.inl (by decide))

end CreateAgent

namespace CreateAgent

/-! ## Claim C5 -/

/-- **C5.** Empty resolved query after stripping: with a completely
empty context the generic default query "Provide helpful assistance" is
substituted and the full six-section path is taken (the output is the
assembled document built from the default query, which appears verbatim
in the Request section, and carries the six template headings); with a
non-empty context the short fallback document embedding the literal
reason "Empty query provided" is returned, together with the report
`{error: "Empty query provided", evaluation: None}` when evaluation is
requested. -/
theorem c5_empty_query_paths (ev : Evaluator) (prefs : Option Preferences)
    (ctx : Context) (q : String)
    (hq : resolvedQuery ctx = .str q) (hblank : pyStrip q = "")
    (hne : ctx.isEmptyDict = false) :
    ((generate_prompt ev {} prefs false) =
        .single (buildDocument "Provide helpful assistance" {} "intermediate" prefs) ∧
      (generate_prompt ev {} prefs true).document =
        buildDocument "Provide helpful assistance" {} "intermediate" prefs ∧
      strContains (build_request_component "Provide helpful assistance" "intermediate" {})
        "Provide helpful assistance" = true ∧
      hcount (generate_prompt ev {} none false).document = 6) ∧
    (generate_prompt ev ctx prefs false =
        .single (generate_error_prompt "Empty query provided") ∧
      generate_prompt ev ctx prefs true =
        .withReport (generate_error_prompt "Empty query provided")
          [("error", RVal.str "Empty query provided"), ("evaluation", RVal.noneV)] ∧
      strContains (generate_error_prompt "Empty query provided")
        "Empty query provided" = true) := by
  constructor
  · refine ⟨rfl, mainPath_document ev {} prefs true "Provide helpful assistance" {} "intermediate", by decide, ?_⟩
    have hd : (generate_prompt ev {} none false).document =
        buildDocument "Provide helpful assistance" {} "intermediate" none := rfl
    rw [hd]
    unfold buildDocument
    exact assemble_hcount _ _ _ _ _ _
      (by decide) (by decide) (by decide) (by decide) (by decide) (by decide)
  · unfold generate_prompt
    split
    · next n heq =>
        rw [hq] at heq
        exact absurd heq (by intro h; cases h)
    · next s heq =>
        rw [hq] at heq
        injection heq with h
        subst h
        rw [if_pos hblank, if_pos hblank, hne]
        exact ⟨rfl, rfl, by decide⟩

/-- Closed instantiation of `c5_empty_query_paths`. -/
theorem c5_empty_query_paths_witness :
    ((generate_prompt ev0 {} none false) =
        .single (buildDocument "Provide helpful assistance" {} "intermediate" none) ∧
      (generate_prompt ev0 {} none true).document =
        buildDocument "Provide helpful assistance" {} "intermediate" none ∧
      strContains (build_request_component "Provide helpful assistance" "intermediate" {})
        "Provide helpful assistance" = true ∧
      hcount (generate_prompt ev0 {} none false).document = 6) ∧
    (generate_prompt ev0 { reasoning_depth := some "basic" } none false =
        .single (generate_error_prompt "Empty query provided") ∧
      generate_prompt ev0 { reasoning_depth := some "basic" } none true =
        .withReport (generate_error_prompt "Empty query provided")
          [("error", RVal.str "Empty query provided"), ("evaluation", RVal.noneV)] ∧
      strContains (generate_error_prompt "Empty query provided")
        "Empty query provided" = true) :=
  c5_empty_query_paths ev0 none { reasoning_depth := some "basic" } ""
    rfl (by decide) (by decide)

/-! ## Claim C10 -/

/-- **C10.** A truthy non-string value reached by the query resolution
of line 155 — under the `query` key, or under `task` when `query` is
absent or falsy, or under `request` when both earlier keys are absent
or falsy — does not raise and does not report "Empty query provided":
`.strip()` fails inside the outer try and the result is the short
error document whose embedded description begins "Generation failed: "
(with the `{error, evaluation: None}` report when evaluation is
requested). -/
theorem c10_nonstring_query_value (ev : Evaluator) (ctx : Context)
    (prefs : Option Preferences) (n : Int)
    (hq : ctx.query = some (.int n) ∨
      ((ctx.query.getD (.str "")).truthy = false ∧ ctx.task = some (.int n)) ∨
      ((ctx.query.getD (.str "")).truthy = false ∧
        (ctx.task.getD (.str "")).truthy = false ∧ ctx.request = some (.int n)))
    (hn : n ≠ 0) :
    generate_prompt ev ctx prefs false =
      .single (generate_error_prompt ("Generation failed: " ++ stripAttributeError)) ∧
    generate_prompt ev ctx prefs true =
      .withReport (generate_error_prompt ("Generation failed: " ++ stripAttributeError))
        [("error", RVal.str ("Generation failed: " ++ stripAttributeError)),
          ("evaluation", RVal.noneV)] ∧
    strContains (generate_error_prompt ("Generation failed: " ++ stripAttributeError))
        "Generation failed: " = true ∧
    strContains (generate_error_prompt ("Generation failed: " ++ stripAttributeError))
        "Empty query provided" = false := by
  have ht : (PyVal.int n).truthy = true := by
    simp only [PyVal.truthy, bne_iff_ne, ne_eq]
    exact hn
  have hres : resolvedQuery ctx = .int n := by
    rcases hq with h | ⟨hf, h⟩ | ⟨hf1, hf2, h⟩
    · unfold resolvedQuery
      rw [h]
      simp only [Option.getD_some]
      simp [pyOr, ht]
    · unfold resolvedQuery
      rw [h]
      simp only [Option.getD_some]
      simp [pyOr, ht, hf]
    · unfold resolvedQuery
      rw [h]
      simp only [Option.getD_some]
      simp [pyOr, ht, hf1, hf2]
  unfold generate_prompt
  split
  · next m heq =>
      rw [hres] at heq
      injection heq with h
      subst h
      exact ⟨rfl, rfl, by decide, by decide⟩
  · next s heq =>
      rw [hres] at heq
      exact absurd heq (by intro h; cases h)

/-- Closed instantiation of `c10_nonstring_query_value`, at the context
`{"task": 3}` (the truthy integer sits under the `task` alias). -/
theorem c10_nonstring_query_value_witness :
    generate_prompt ev0 { task := some (.int 3) } none false =
      .single (generate_error_prompt ("Generation failed: " ++ stripAttributeError)) ∧
    generate_prompt ev0 { task := some (.int 3) } none true =
      .withReport (generate_error_prompt ("Generation failed: " ++ stripAttributeError))
        [("error", RVal.str ("Generation failed: " ++ stripAttributeError)),
          ("evaluation", RVal.noneV)] ∧
    strContains (generate_error_prompt ("Generation failed: " ++ stripAttributeError))
        "Generation failed: " = true ∧
    strContains (generate_error_prompt ("Generation failed: " ++ stripAttributeError))
        "Empty query provided" = false :=
  c10_nonstring_query_value ev0 { task := some (.int 3) } none 3
    (Or.inr (Or.inl ⟨by decide, rfl⟩)) (by decide)

end CreateAgent
